import Mathlib

/-!
Shallow embedding of the Solidity contract `MultisigPolicyFhe`
(src/contracts/Multisig_Policy_Fhe.sol) and proofs about it.

Modelling conventions:
* Addresses, timestamps and request ids are `Nat`.
* FHE ciphertext handles (`euint32` / `ebool`) are modelled as a free term
  algebra `ECt`: each homomorphic operation builds a new symbolic handle.
  This matches the symbolic-handle semantics of the FHEVM coprocessor, where
  the handle of an operation is a deterministic function of the opcode and
  the input handles.
* `keccak256(abi.encode(cts, address(this)))` in `_hashCiphertexts` is
  modelled as an idealized injective digest `HashV.digest cts addr`; the
  all-zero `bytes32` default of a fresh storage slot is `HashV.zero`.
* The external oracle is modelled at its interface: the request id returned
  by `FHE.requestDecryption` is a parameter of `requestApprovalStatus`, and
  the outcome of `FHE.checkSignatures(requestId, cleartexts, proof)` together
  with the decoded boolean cleartext are parameters of `myCallback`.
* A reverting call is `Except.error e`: the EVM rolls back every effect of a
  reverted call, so an error result carries no state change.
-/

/-- Symbolic FHE ciphertext handles (`euint32` and `ebool` values). -/
inductive ECt where
  | uninit : ECt
  | const : Nat → ECt
  | ext : Nat → ECt
  | add : ECt → ECt → ECt
  | le : ECt → ECt → ECt
  | gt : ECt → ECt → ECt
  | ge : ECt → ECt → ECt
  | and : ECt → ECt → ECt
  | or : ECt → ECt → ECt
deriving DecidableEq, Repr

/-- Plaintext interpretation of a ciphertext handle under an assignment `ρ`
of plaintext values to externally produced handles (`ECt.ext i`).
Unsigned values live in `euint32`, i.e. modulo `2 ^ 32`; encrypted booleans
are represented as `0` / `1`. -/
def evalCt (ρ : Nat → Nat) : ECt → Nat
  | ECt.uninit => 0
  | ECt.const n => n % 2 ^ 32
  | ECt.ext i => ρ i % 2 ^ 32
  | ECt.add a b => (evalCt ρ a + evalCt ρ b) % 2 ^ 32
  | ECt.le a b => if evalCt ρ a ≤ evalCt ρ b then 1 else 0
  | ECt.gt a b => if evalCt ρ b < evalCt ρ a then 1 else 0
  | ECt.ge a b => if evalCt ρ b ≤ evalCt ρ a then 1 else 0
  | ECt.and a b => if evalCt ρ a = 1 ∧ evalCt ρ b = 1 then 1 else 0
  | ECt.or a b => if evalCt ρ a = 1 ∨ evalCt ρ b = 1 then 1 else 0

/-- The two-tier threshold predicate, exactly as composed in
`requestApprovalStatus` (lines 181-185) and `myCallback` (lines 210-213):
`condition1.and(numApprovals.ge(threshold2)).or(condition2.and(numApprovals.ge(threshold4)))`
with `condition1 = amount.le(limit)` and `condition2 = amount.gt(limit)`. -/
def approvalPredicate (amount numApprovals threshold2 threshold4 limit : ECt) : ECt :=
  ECt.or (ECt.and (ECt.le amount limit) (ECt.ge numApprovals threshold2))
    (ECt.and (ECt.gt amount limit) (ECt.ge numApprovals threshold4))

/-- Idealized `bytes32` digests: `zero` is the default storage value,
`digest cts addr` models `keccak256(abi.encode(cts, address(this)))`. -/
inductive HashV where
  | zero : HashV
  | digest : List ECt → Nat → HashV
deriving DecidableEq, Repr

/-- `_hashCiphertexts` (line 233-235). -/
def hashCiphertexts (cts : List ECt) (addr : Nat) : HashV :=
  HashV.digest cts addr

/-- The `DecryptionContext` struct (lines 18-22). -/
structure DecryptionContext where
  batchId : Nat
  stateHash : HashV
  processed : Bool
deriving DecidableEq, Repr

/-- Default value of a `DecryptionContext` storage slot. -/
def defaultContext : DecryptionContext :=
  { batchId := 0, stateHash := HashV.zero, processed := false }

/-- The `Batch` struct (lines 25-33); the `id` field is declared in the
source but never written. -/
structure Batch where
  id : Nat
  isOpen : Bool
  totalAmountEncrypted : ECt
  numApprovalsEncrypted : ECt
  threshold2Encrypted : ECt
  threshold4Encrypted : ECt
  limitEncrypted : ECt
deriving DecidableEq, Repr

/-- Default value of a `Batch` storage slot. -/
def defaultBatch : Batch :=
  { id := 0, isOpen := false, totalAmountEncrypted := ECt.uninit,
    numApprovalsEncrypted := ECt.uninit, threshold2Encrypted := ECt.uninit,
    threshold4Encrypted := ECt.uninit, limitEncrypted := ECt.uninit }

/-- The contract storage (lines 10-35), plus `selfAddr` for `address(this)`. -/
structure ContractState where
  selfAddr : Nat
  owner : Nat
  isProvider : Nat → Bool
  lastSubmissionTime : Nat → Nat
  lastDecryptionRequestTime : Nat → Nat
  cooldownSeconds : Nat
  paused : Bool
  decryptionContexts : Nat → DecryptionContext
  batches : Nat → Batch
  currentBatchId : Nat

/-- The custom errors (lines 38-48); `RequireViolation` stands for the
string-message `require` failure in `setCooldownSeconds`. -/
inductive Err where
  | NotOwner | NotProvider | Paused | CooldownActive
  | BatchClosed | BatchOpen | InvalidThreshold | InvalidLimit
  | ReplayAttempt | StateMismatch | DecryptionFailed | RequireViolation
deriving DecidableEq, Repr

/-- The events (lines 51-62). -/
inductive Event where
  | OwnershipTransferred : Nat → Nat → Event
  | ProviderAdded : Nat → Event
  | ProviderRemoved : Nat → Event
  | PausedContract : Nat → Event
  | UnpausedContract : Nat → Event
  | CooldownSecondsSet : Nat → Nat → Event
  | BatchOpened : Nat → Event
  | BatchClosed : Nat → Event
  | PolicyParametersSubmitted : Nat → Nat → Event
  | TransactionSubmitted : Nat → Nat → Event
  | DecryptionRequested : Nat → Nat → Event
  | DecryptionCompleted : Nat → Nat → Bool → Event
deriving DecidableEq, Repr

/-- Result of a call: a reverting call (`Except.error`) has no effects. -/
abbrev CallResult := Except Err (ContractState × List Event)

/-- The constructor (lines 90-94): deployer becomes owner and provider. -/
def initialState (deployer selfAddr : Nat) : ContractState :=
  { selfAddr := selfAddr, owner := deployer,
    isProvider := fun a => decide (a = deployer),
    lastSubmissionTime := fun _ => 0,
    lastDecryptionRequestTime := fun _ => 0,
    cooldownSeconds := 60, paused := false,
    decryptionContexts := fun _ => defaultContext,
    batches := fun _ => defaultBatch, currentBatchId := 1 }

/-- Events emitted by the constructor. -/
def initialEvents (deployer : Nat) : List Event :=
  [Event.ProviderAdded deployer]

/-- `transferOwnership` (lines 96-100). -/
def transferOwnership (s : ContractState) (sender newOwner : Nat) : CallResult :=
  if sender ≠ s.owner then Except.error Err.NotOwner
  else Except.ok ({ s with owner := newOwner },
    [Event.OwnershipTransferred s.owner newOwner])

/-- `addProvider` (lines 102-107). -/
def addProvider (s : ContractState) (sender provider : Nat) : CallResult :=
  if sender ≠ s.owner then Except.error Err.NotOwner
  else if s.isProvider provider then Except.ok (s, [])
  else Except.ok ({ s with isProvider := Function.update s.isProvider provider true },
    [Event.ProviderAdded provider])

/-- `removeProvider` (lines 109-114). -/
def removeProvider (s : ContractState) (sender provider : Nat) : CallResult :=
  if sender ≠ s.owner then Except.error Err.NotOwner
  else if s.isProvider provider then
    Except.ok ({ s with isProvider := Function.update s.isProvider provider false },
      [Event.ProviderRemoved provider])
  else Except.ok (s, [])

/-- `pause` (lines 116-119). -/
def pause (s : ContractState) (sender : Nat) : CallResult :=
  if sender ≠ s.owner then Except.error Err.NotOwner
  else if s.paused then Except.error Err.Paused
  else Except.ok ({ s with paused := true }, [Event.PausedContract sender])

/-- `unpause` (lines 121-125). -/
def unpause (s : ContractState) (sender : Nat) : CallResult :=
  if sender ≠ s.owner then Except.error Err.NotOwner
  else if !s.paused then Except.error Err.Paused
  else Except.ok ({ s with paused := false }, [Event.UnpausedContract sender])

/-- `setCooldownSeconds` (lines 127-132). -/
def setCooldownSeconds (s : ContractState) (sender newCooldown : Nat) : CallResult :=
  if sender ≠ s.owner then Except.error Err.NotOwner
  else if newCooldown = 0 then Except.error Err.RequireViolation
  else Except.ok ({ s with cooldownSeconds := newCooldown },
    [Event.CooldownSecondsSet s.cooldownSeconds newCooldown])

/-- `openBatch` (lines 134-143). -/
def openBatch (s : ContractState) (sender : Nat) : CallResult :=
  if sender ≠ s.owner then Except.error Err.NotOwner
  else if s.paused then Except.error Err.Paused
  else if (s.batches s.currentBatchId).isOpen then Except.error Err.BatchOpen
  else
    let b := s.batches s.currentBatchId
    let b' := { b with
      isOpen := true
      totalAmountEncrypted := ECt.const 0
      numApprovalsEncrypted := ECt.const 0
      threshold2Encrypted := ECt.const 2
      threshold4Encrypted := ECt.const 4
      limitEncrypted := ECt.const 10000 }
    Except.ok ({ s with batches := Function.update s.batches s.currentBatchId b' },
      [Event.BatchOpened s.currentBatchId])

/-- `closeBatch` (lines 145-150). -/
def closeBatch (s : ContractState) (sender : Nat) : CallResult :=
  if sender ≠ s.owner then Except.error Err.NotOwner
  else if s.paused then Except.error Err.Paused
  else if !(s.batches s.currentBatchId).isOpen then Except.error Err.BatchClosed
  else
    let b := s.batches s.currentBatchId
    Except.ok ({ s with
        batches := Function.update s.batches s.currentBatchId { b with isOpen := false },
        currentBatchId := s.currentBatchId + 1 },
      [Event.BatchClosed s.currentBatchId])

/-- `setPolicyParameters` (lines 152-162); modifier order is `onlyProvider`,
`whenNotPaused`, `respectCooldown`, and `onlyProvider` writes the caller's
`lastSubmissionTime` after the body. -/
def setPolicyParameters (s : ContractState) (sender now : Nat)
    (threshold2 threshold4 limit : ECt) : CallResult :=
  if !s.isProvider sender then Except.error Err.NotProvider
  else if s.paused then Except.error Err.Paused
  else if now < s.lastSubmissionTime sender + s.cooldownSeconds then
    Except.error Err.CooldownActive
  else if now < s.lastDecryptionRequestTime sender + s.cooldownSeconds then
    Except.error Err.CooldownActive
  else if !(s.batches s.currentBatchId).isOpen then Except.error Err.BatchClosed
  else
    let b := s.batches s.currentBatchId
    let b' := { b with
      threshold2Encrypted := threshold2
      threshold4Encrypted := threshold4
      limitEncrypted := limit }
    Except.ok ({ s with
        batches := Function.update s.batches s.currentBatchId b',
        lastSubmissionTime := Function.update s.lastSubmissionTime sender now },
      [Event.PolicyParametersSubmitted s.currentBatchId sender])

/-- `submitTransaction` (lines 164-169); same modifier stack as
`setPolicyParameters`. -/
def submitTransaction (s : ContractState) (sender now : Nat)
    (amount numApprovals : ECt) : CallResult :=
  if !s.isProvider sender then Except.error Err.NotProvider
  else if s.paused then Except.error Err.Paused
  else if now < s.lastSubmissionTime sender + s.cooldownSeconds then
    Except.error Err.CooldownActive
  else if now < s.lastDecryptionRequestTime sender + s.cooldownSeconds then
    Except.error Err.CooldownActive
  else if !(s.batches s.currentBatchId).isOpen then Except.error Err.BatchClosed
  else
    let b := s.batches s.currentBatchId
    let b' := { b with
      totalAmountEncrypted := ECt.add b.totalAmountEncrypted amount,
      numApprovalsEncrypted := ECt.add b.numApprovalsEncrypted numApprovals }
    Except.ok ({ s with
        batches := Function.update s.batches s.currentBatchId b',
        lastSubmissionTime := Function.update s.lastSubmissionTime sender now },
      [Event.TransactionSubmitted s.currentBatchId sender])

/-- The predicate ciphertext derived from a batch's current five fields,
as built identically at lines 175-185 and 204-213. -/
def batchPredicate (b : Batch) : ECt :=
  approvalPredicate b.totalAmountEncrypted b.numApprovalsEncrypted
    b.threshold2Encrypted b.threshold4Encrypted b.limitEncrypted

/-- `requestApprovalStatus` (lines 171-197). `requestId` is the id assigned
by the external oracle in `FHE.requestDecryption`. -/
def requestApprovalStatus (s : ContractState) (sender now batchId requestId : Nat) :
    CallResult :=
  if s.paused then Except.error Err.Paused
  else if now < s.lastSubmissionTime sender + s.cooldownSeconds then
    Except.error Err.CooldownActive
  else if now < s.lastDecryptionRequestTime sender + s.cooldownSeconds then
    Except.error Err.CooldownActive
  else if s.currentBatchId ≤ batchId ∨ !(s.batches batchId).isOpen then
    Except.error Err.BatchClosed
  else
    let approvalStatus := batchPredicate (s.batches batchId)
    let stateHash := hashCiphertexts [approvalStatus] s.selfAddr
    Except.ok ({ s with
        decryptionContexts := Function.update s.decryptionContexts requestId
          { batchId := batchId, stateHash := stateHash, processed := false },
        lastDecryptionRequestTime := Function.update s.lastDecryptionRequestTime sender now },
      [Event.DecryptionRequested requestId batchId])

/-- `myCallback` (lines 199-231). `cleartext` is the boolean decoded from
`cleartexts` by `abi.decode`, `proofValid` the outcome of
`FHE.checkSignatures(requestId, cleartexts, proof)`. -/
def myCallback (s : ContractState) (requestId : Nat) (cleartext proofValid : Bool) :
    CallResult :=
  let ctx := s.decryptionContexts requestId
  if ctx.processed then Except.error Err.ReplayAttempt
  else
    let currentHash := hashCiphertexts [batchPredicate (s.batches ctx.batchId)] s.selfAddr
    if currentHash ≠ ctx.stateHash then Except.error Err.StateMismatch
    else if !proofValid then Except.error Err.DecryptionFailed
    else
      Except.ok ({ s with
          decryptionContexts := Function.update s.decryptionContexts requestId
            { ctx with processed := true } },
        [Event.DecryptionCompleted requestId ctx.batchId cleartext])

/-- One external call, with its environment-chosen data (sender, timestamp,
oracle request id, oracle verification outcome). -/
inductive Call where
  | transferOwnership : Nat → Nat → Call
  | addProvider : Nat → Nat → Call
  | removeProvider : Nat → Nat → Call
  | pause : Nat → Call
  | unpause : Nat → Call
  | setCooldownSeconds : Nat → Nat → Call
  | openBatch : Nat → Call
  | closeBatch : Nat → Call
  | setPolicyParameters : Nat → Nat → ECt → ECt → ECt → Call
  | submitTransaction : Nat → Nat → ECt → ECt → Call
  | requestApprovalStatus : Nat → Nat → Nat → Nat → Call
  | myCallback : Nat → Bool → Bool → Call

/-- Dispatch a call to the corresponding entry point. -/
def exec (c : Call) (s : ContractState) : CallResult :=
  match c with
  | Call.transferOwnership sender newOwner => transferOwnership s sender newOwner
  | Call.addProvider sender p => addProvider s sender p
  | Call.removeProvider sender p => removeProvider s sender p
  | Call.pause sender => pause s sender
  | Call.unpause sender => unpause s sender
  | Call.setCooldownSeconds sender n => setCooldownSeconds s sender n
  | Call.openBatch sender => openBatch s sender
  | Call.closeBatch sender => closeBatch s sender
  | Call.setPolicyParameters sender now t2 t4 l => setPolicyParameters s sender now t2 t4 l
  | Call.submitTransaction sender now a n => submitTransaction s sender now a n
  | Call.requestApprovalStatus sender now b r => requestApprovalStatus s sender now b r
  | Call.myCallback r c p => myCallback s r c p

/-- Post-state of a call under EVM revert semantics: a reverted call leaves
the storage unchanged. -/
def execState (c : Call) (s : ContractState) : ContractState :=
  match exec c s with
  | Except.ok (s', _) => s'
  | Except.error _ => s

/-- One successful state transition. -/
def Step (s s' : ContractState) : Prop :=
  ∃ c ev, exec c s = Except.ok (s', ev)

/-- States reachable from a fresh deployment by `deployer` at `selfAddr`. -/
def Reachable (deployer selfAddr : Nat) (s : ContractState) : Prop :=
  Relation.ReflTransGen Step (initialState deployer selfAddr) s

/-! ## Helper lemmas about the embedded operations -/

/-- A 0/1-valued `if` equals `1` exactly when its condition holds. -/
theorem ite_one_eq_one (c : Prop) [Decidable c] : ((if c then (1 : Nat) else 0) = 1) ↔ c := by
  split <;> simp_all

/-- Success shape of `transferOwnership`. -/
theorem transferOwnership_ok {s : ContractState} {sender newOwner : Nat}
    {s' : ContractState} {ev : List Event}
    (h : transferOwnership s sender newOwner = Except.ok (s', ev)) :
    s' = { s with owner := newOwner } := by
  simp only [transferOwnership] at h
  split at h
  · simp at h
  · simp only [Except.ok.injEq, Prod.mk.injEq] at h
    exact h.1.symm

/-- Frame of a successful `addProvider`: only the provider registry changes. -/
theorem addProvider_frame {s : ContractState} {sender p : Nat}
    {s' : ContractState} {ev : List Event}
    (h : addProvider s sender p = Except.ok (s', ev)) :
    s'.batches = s.batches ∧ s'.currentBatchId = s.currentBatchId ∧
    s'.decryptionContexts = s.decryptionContexts := by
  simp only [addProvider] at h
  split at h
  · simp at h
  · split at h <;>
    · simp only [Except.ok.injEq, Prod.mk.injEq] at h
      exact ⟨by rw [← h.1], by rw [← h.1], by rw [← h.1]⟩

/-- Frame of a successful `removeProvider`. -/
theorem removeProvider_frame {s : ContractState} {sender p : Nat}
    {s' : ContractState} {ev : List Event}
    (h : removeProvider s sender p = Except.ok (s', ev)) :
    s'.batches = s.batches ∧ s'.currentBatchId = s.currentBatchId ∧
    s'.decryptionContexts = s.decryptionContexts := by
  simp only [removeProvider] at h
  split at h
  · simp at h
  · split at h <;>
    · simp only [Except.ok.injEq, Prod.mk.injEq] at h
      exact ⟨by rw [← h.1], by rw [← h.1], by rw [← h.1]⟩

/-- Frame of a successful `pause`. -/
theorem pause_frame {s : ContractState} {sender : Nat}
    {s' : ContractState} {ev : List Event}
    (h : pause s sender = Except.ok (s', ev)) :
    s'.batches = s.batches ∧ s'.currentBatchId = s.currentBatchId ∧
    s'.decryptionContexts = s.decryptionContexts := by
  simp only [pause] at h
  split at h
  · simp at h
  · split at h
    · simp at h
    · simp only [Except.ok.injEq, Prod.mk.injEq] at h
      exact ⟨by rw [← h.1], by rw [← h.1], by rw [← h.1]⟩

/-- Frame of a successful `unpause`. -/
theorem unpause_frame {s : ContractState} {sender : Nat}
    {s' : ContractState} {ev : List Event}
    (h : unpause s sender = Except.ok (s', ev)) :
    s'.batches = s.batches ∧ s'.currentBatchId = s.currentBatchId ∧
    s'.decryptionContexts = s.decryptionContexts := by
  simp only [unpause] at h
  split at h
  · simp at h
  · split at h
    · simp at h
    · simp only [Except.ok.injEq, Prod.mk.injEq] at h
      exact ⟨by rw [← h.1], by rw [← h.1], by rw [← h.1]⟩

/-- Frame of a successful `setCooldownSeconds`. -/
theorem setCooldownSeconds_frame {s : ContractState} {sender n : Nat}
    {s' : ContractState} {ev : List Event}
    (h : setCooldownSeconds s sender n = Except.ok (s', ev)) :
    s'.batches = s.batches ∧ s'.currentBatchId = s.currentBatchId ∧
    s'.decryptionContexts = s.decryptionContexts := by
  simp only [setCooldownSeconds] at h
  split at h
  · simp at h
  · split at h
    · simp at h
    · simp only [Except.ok.injEq, Prod.mk.injEq] at h
      exact ⟨by rw [← h.1], by rw [← h.1], by rw [← h.1]⟩

/-- Success shape of `openBatch`: guards passed, the current batch is marked
open with the five encrypted fields reset to the default encrypted constants,
and a batch-opened event is emitted. -/
theorem openBatch_ok {s : ContractState} {sender : Nat}
    {s' : ContractState} {ev : List Event}
    (h : openBatch s sender = Except.ok (s', ev)) :
    sender = s.owner ∧ s.paused = false ∧
    (s.batches s.currentBatchId).isOpen = false ∧
    s' = { s with
      batches := Function.update s.batches s.currentBatchId
        { s.batches s.currentBatchId with
          isOpen := true
          totalAmountEncrypted := ECt.const 0
          numApprovalsEncrypted := ECt.const 0
          threshold2Encrypted := ECt.const 2
          threshold4Encrypted := ECt.const 4
          limitEncrypted := ECt.const 10000 } } ∧
    ev = [Event.BatchOpened s.currentBatchId] := by
  simp only [openBatch] at h
  split at h
  · simp at h
  split at h
  · simp at h
  split at h
  · simp at h
  rename_i h1 h2 h3
  simp only [Except.ok.injEq, Prod.mk.injEq] at h
  refine ⟨by simpa using h1, by simpa using h2, by simpa using h3, h.1.symm, h.2.symm⟩

/-- Success shape of `closeBatch`: guards passed, the current batch is marked
closed, a batch-closed event is emitted, and the current id advances by one. -/
theorem closeBatch_ok {s : ContractState} {sender : Nat}
    {s' : ContractState} {ev : List Event}
    (h : closeBatch s sender = Except.ok (s', ev)) :
    sender = s.owner ∧ s.paused = false ∧
    (s.batches s.currentBatchId).isOpen = true ∧
    s' = { s with
      batches := Function.update s.batches s.currentBatchId
        { s.batches s.currentBatchId with isOpen := false }
      currentBatchId := s.currentBatchId + 1 } ∧
    ev = [Event.BatchClosed s.currentBatchId] := by
  simp only [closeBatch] at h
  split at h
  · simp at h
  split at h
  · simp at h
  split at h
  · simp at h
  rename_i h1 h2 h3
  simp only [Except.ok.injEq, Prod.mk.injEq] at h
  refine ⟨by simpa using h1, by simpa using h2, by simpa using h3, h.1.symm, h.2.symm⟩

/-- Success shape of `setPolicyParameters`. -/
theorem setPolicyParameters_ok {s : ContractState} {sender now : Nat}
    {threshold2 threshold4 limit : ECt} {s' : ContractState} {ev : List Event}
    (h : setPolicyParameters s sender now threshold2 threshold4 limit = Except.ok (s', ev)) :
    s.isProvider sender = true ∧ s.paused = false ∧
    s.lastSubmissionTime sender + s.cooldownSeconds ≤ now ∧
    s.lastDecryptionRequestTime sender + s.cooldownSeconds ≤ now ∧
    (s.batches s.currentBatchId).isOpen = true ∧
    s' = { s with
      batches := Function.update s.batches s.currentBatchId
        { s.batches s.currentBatchId with
          threshold2Encrypted := threshold2
          threshold4Encrypted := threshold4
          limitEncrypted := limit }
      lastSubmissionTime := Function.update s.lastSubmissionTime sender now } ∧
    ev = [Event.PolicyParametersSubmitted s.currentBatchId sender] := by
  simp only [setPolicyParameters] at h
  split at h
  · simp at h
  split at h
  · simp at h
  split at h
  · simp at h
  split at h
  · simp at h
  split at h
  · simp at h
  rename_i h1 h2 h3 h4 h5
  simp only [Except.ok.injEq, Prod.mk.injEq] at h
  refine ⟨by simpa using h1, by simpa using h2, by omega, by omega,
    by simpa using h5, h.1.symm, h.2.symm⟩

/-- Success shape of `submitTransaction`: guards passed, the current batch's
encrypted totals are accumulated homomorphically, the caller's submission
timestamp is advanced, and a submission event is emitted. -/
theorem submitTransaction_ok {s : ContractState} {sender now : Nat}
    {amount numApprovals : ECt} {s' : ContractState} {ev : List Event}
    (h : submitTransaction s sender now amount numApprovals = Except.ok (s', ev)) :
    s.isProvider sender = true ∧ s.paused = false ∧
    s.lastSubmissionTime sender + s.cooldownSeconds ≤ now ∧
    s.lastDecryptionRequestTime sender + s.cooldownSeconds ≤ now ∧
    (s.batches s.currentBatchId).isOpen = true ∧
    s' = { s with
      batches := Function.update s.batches s.currentBatchId
        { s.batches s.currentBatchId with
          totalAmountEncrypted :=
            ECt.add (s.batches s.currentBatchId).totalAmountEncrypted amount
          numApprovalsEncrypted :=
            ECt.add (s.batches s.currentBatchId).numApprovalsEncrypted numApprovals }
      lastSubmissionTime := Function.update s.lastSubmissionTime sender now } ∧
    ev = [Event.TransactionSubmitted s.currentBatchId sender] := by
  simp only [submitTransaction] at h
  split at h
  · simp at h
  split at h
  · simp at h
  split at h
  · simp at h
  split at h
  · simp at h
  split at h
  · simp at h
  rename_i h1 h2 h3 h4 h5
  simp only [Except.ok.injEq, Prod.mk.injEq] at h
  refine ⟨by simpa using h1, by simpa using h2, by omega, by omega,
    by simpa using h5, h.1.symm, h.2.symm⟩

/-- Success shape of `requestApprovalStatus`: guards passed (note the code
demands `batchId < currentBatchId` besides the batch being open), a fresh
unprocessed context pinned to the hash of the predicate ciphertext is stored,
and the caller's decryption-request timestamp is advanced. -/
theorem requestApprovalStatus_ok {s : ContractState} {sender now batchId requestId : Nat}
    {s' : ContractState} {ev : List Event}
    (h : requestApprovalStatus s sender now batchId requestId = Except.ok (s', ev)) :
    s.paused = false ∧
    s.lastSubmissionTime sender + s.cooldownSeconds ≤ now ∧
    s.lastDecryptionRequestTime sender + s.cooldownSeconds ≤ now ∧
    batchId < s.currentBatchId ∧ (s.batches batchId).isOpen = true ∧
    s' = { s with
      decryptionContexts := Function.update s.decryptionContexts requestId
        { batchId := batchId
          stateHash := hashCiphertexts [batchPredicate (s.batches batchId)] s.selfAddr
          processed := false }
      lastDecryptionRequestTime := Function.update s.lastDecryptionRequestTime sender now } ∧
    ev = [Event.DecryptionRequested requestId batchId] := by
  simp only [requestApprovalStatus] at h
  split at h
  · simp at h
  split at h
  · simp at h
  split at h
  · simp at h
  split at h
  · simp at h
  rename_i h1 h2 h3 h4
  simp only [not_or] at h4
  simp only [Except.ok.injEq, Prod.mk.injEq] at h
  refine ⟨by simpa using h1, by omega, by omega, by omega,
    by simpa using h4.2, h.1.symm, h.2.symm⟩

/-- Success shape of `myCallback`: the context is unprocessed, the hash of
the re-derived predicate ciphertext matches the pinned hash, the proof
verifies, the context is marked processed, and a completion event carrying
the decoded boolean is emitted. -/
theorem myCallback_ok {s : ContractState} {requestId : Nat} {cleartext proofValid : Bool}
    {s' : ContractState} {ev : List Event}
    (h : myCallback s requestId cleartext proofValid = Except.ok (s', ev)) :
    (s.decryptionContexts requestId).processed = false ∧
    hashCiphertexts [batchPredicate (s.batches (s.decryptionContexts requestId).batchId)]
        s.selfAddr = (s.decryptionContexts requestId).stateHash ∧
    proofValid = true ∧
    s' = { s with
      decryptionContexts := Function.update s.decryptionContexts requestId
        { s.decryptionContexts requestId with processed := true } } ∧
    ev = [Event.DecryptionCompleted requestId (s.decryptionContexts requestId).batchId
      cleartext] := by
  simp only [myCallback] at h
  split at h
  · simp at h
  split at h
  · simp at h
  split at h
  · simp at h
  rename_i h1 h2 h3
  simp only [Except.ok.injEq, Prod.mk.injEq] at h
  refine ⟨by simpa using h1, by simpa using h2, by simpa using h3, h.1.symm, h.2.symm⟩

/-- Shape of any successful call: the current batch id never decreases, only
the current batch's record is ever written, a batch can become open only as
the current batch, after an id change the old current batch is closed, and a
decryption context changes only by a successful `requestApprovalStatus`
storing a new context or by `myCallback` flipping `processed` to true. -/
theorem exec_ok_shape {c : Call} {s s' : ContractState} {ev : List Event}
    (h : exec c s = Except.ok (s', ev)) :
    s.currentBatchId ≤ s'.currentBatchId ∧
    (∀ i, i ≠ s.currentBatchId → s'.batches i = s.batches i) ∧
    (∀ i, (s'.batches i).isOpen = true →
      (s.batches i).isOpen = true ∨ (i = s.currentBatchId ∧ s'.currentBatchId = s.currentBatchId)) ∧
    (s'.currentBatchId ≠ s.currentBatchId → (s'.batches s.currentBatchId).isOpen = false) ∧
    (∀ r, s'.decryptionContexts r = s.decryptionContexts r ∨
      (∃ sender now batchId, c = Call.requestApprovalStatus sender now batchId r ∧
        batchId < s.currentBatchId ∧ (s.batches batchId).isOpen = true) ∨
      ((s.decryptionContexts r).processed = false ∧
        (s'.decryptionContexts r).processed = true)) := by
  cases c with
  | transferOwnership sender newOwner =>
      simp only [exec] at h
      obtain rfl := transferOwnership_ok h
      exact ⟨le_refl _, fun i _ => rfl, fun i hi => Or.inl hi,
        fun hne => absurd rfl hne, fun r => Or.inl rfl⟩
  | addProvider sender p =>
      simp only [exec] at h
      obtain ⟨hb, hc, hd⟩ := addProvider_frame h
      exact ⟨hc.ge, fun i _ => by rw [hb], fun i hi => Or.inl (by rwa [hb] at hi),
        fun hne => absurd hc hne, fun r => Or.inl (by rw [hd])⟩
  | removeProvider sender p =>
      simp only [exec] at h
      obtain ⟨hb, hc, hd⟩ := removeProvider_frame h
      exact ⟨hc.ge, fun i _ => by rw [hb], fun i hi => Or.inl (by rwa [hb] at hi),
        fun hne => absurd hc hne, fun r => Or.inl (by rw [hd])⟩
  | pause sender =>
      simp only [exec] at h
      obtain ⟨hb, hc, hd⟩ := pause_frame h
      exact ⟨hc.ge, fun i _ => by rw [hb], fun i hi => Or.inl (by rwa [hb] at hi),
        fun hne => absurd hc hne, fun r => Or.inl (by rw [hd])⟩
  | unpause sender =>
      simp only [exec] at h
      obtain ⟨hb, hc, hd⟩ := unpause_frame h
      exact ⟨hc.ge, fun i _ => by rw [hb], fun i hi => Or.inl (by rwa [hb] at hi),
        fun hne => absurd hc hne, fun r => Or.inl (by rw [hd])⟩
  | setCooldownSeconds sender n =>
      simp only [exec] at h
      obtain ⟨hb, hc, hd⟩ := setCooldownSeconds_frame h
      exact ⟨hc.ge, fun i _ => by rw [hb], fun i hi => Or.inl (by rwa [hb] at hi),
        fun hne => absurd hc hne, fun r => Or.inl (by rw [hd])⟩
  | openBatch sender =>
      simp only [exec] at h
      obtain ⟨-, -, -, rfl, -⟩ := openBatch_ok h
      refine ⟨le_refl _, ?_, ?_, fun hne => absurd rfl hne, fun r => Or.inl rfl⟩
      · intro i hi
        dsimp only
        rw [Function.update_noteq hi]
      · intro i hi
        dsimp only at hi
        by_cases hic : i = s.currentBatchId
        · exact Or.inr ⟨hic, rfl⟩
        · rw [Function.update_noteq hic] at hi
          exact Or.inl hi
  | closeBatch sender =>
      simp only [exec] at h
      obtain ⟨-, -, -, rfl, -⟩ := closeBatch_ok h
      refine ⟨Nat.le_succ _, ?_, ?_, fun _ => ?_, fun r => Or.inl rfl⟩
      · intro i hi
        dsimp only
        rw [Function.update_noteq hi]
      · intro i hi
        dsimp only at hi
        by_cases hic : i = s.currentBatchId
        · subst hic
          rw [Function.update_same] at hi
          simp at hi
        · rw [Function.update_noteq hic] at hi
          exact Or.inl hi
      · dsimp only
        rw [Function.update_same]
  | setPolicyParameters sender now t2 t4 l =>
      simp only [exec] at h
      obtain ⟨-, -, -, -, -, rfl, -⟩ := setPolicyParameters_ok h
      refine ⟨le_refl _, ?_, ?_, fun hne => absurd rfl hne, fun r => Or.inl rfl⟩
      · intro i hi
        dsimp only
        rw [Function.update_noteq hi]
      · intro i hi
        dsimp only at hi
        by_cases hic : i = s.currentBatchId
        · exact Or.inr ⟨hic, rfl⟩
        · rw [Function.update_noteq hic] at hi
          exact Or.inl hi
  | submitTransaction sender now amt napp =>
      simp only [exec] at h
      obtain ⟨-, -, -, -, -, rfl, -⟩ := submitTransaction_ok h
      refine ⟨le_refl _, ?_, ?_, fun hne => absurd rfl hne, fun r => Or.inl rfl⟩
      · intro i hi
        dsimp only
        rw [Function.update_noteq hi]
      · intro i hi
        dsimp only at hi
        by_cases hic : i = s.currentBatchId
        · exact Or.inr ⟨hic, rfl⟩
        · rw [Function.update_noteq hic] at hi
          exact Or.inl hi
  | requestApprovalStatus sender now batchId requestId =>
      simp only [exec] at h
      obtain ⟨-, -, -, hlt, hop, rfl, -⟩ := requestApprovalStatus_ok h
      refine ⟨le_refl _, fun i _ => rfl, fun i hi => Or.inl hi,
        fun hne => absurd rfl hne, ?_⟩
      intro r
      by_cases hr : r = requestId
      · subst hr
        exact Or.inr (Or.inl ⟨sender, now, batchId, rfl, hlt, hop⟩)
      · refine Or.inl ?_
        dsimp only
        rw [Function.update_noteq hr]
  | myCallback requestId clr pv =>
      simp only [exec] at h
      obtain ⟨hpr, -, -, rfl, -⟩ := myCallback_ok h
      refine ⟨le_refl _, fun i _ => rfl, fun i hi => Or.inl hi,
        fun hne => absurd rfl hne, ?_⟩
      intro r
      by_cases hr : r = requestId
      · subst hr
        refine Or.inr (Or.inr ⟨hpr, ?_⟩)
        dsimp only
        rw [Function.update_same]
      · refine Or.inl ?_
        dsimp only
        rw [Function.update_noteq hr]

/-- In every reachable state, an open batch is the current batch. -/
theorem reachable_open_eq_current {d a : Nat} {s : ContractState}
    (hr : Reachable d a s) :
    ∀ i, (s.batches i).isOpen = true → i = s.currentBatchId := by
  induction hr with
  | refl =>
      intro i hi
      simp [initialState, defaultBatch] at hi
  | tail hsteps hstep ih =>
      obtain ⟨call, ev, hex⟩ := hstep
      obtain ⟨-, -, h3, h4, -⟩ := exec_ok_shape hex
      intro i hi
      rcases h3 i hi with hopen | ⟨rfl, hcc⟩
      · rename_i b c
        by_cases hcur : c.currentBatchId = b.currentBatchId
        · rw [hcur]
          exact ih i hopen
        · exact absurd ((ih i hopen) ▸ hi) (by simpa using h4 hcur)
      · exact hcc.symm

/-- In every reachable state, every decryption-context slot still holds the
default (empty) context: the guard `batchId >= currentBatchId` in
`requestApprovalStatus` can never be passed for an open batch, so no context
is ever stored, and `myCallback` can never get past its state-hash check
against the all-zero default hash. -/
theorem reachable_contexts_default {d a : Nat} {s : ContractState}
    (hr : Reachable d a s) :
    ∀ r, s.decryptionContexts r = defaultContext := by
  induction hr with
  | refl => intro r; rfl
  | tail hsteps hstep ih =>
      obtain ⟨call, ev, hex⟩ := hstep
      intro r
      cases call with
      | transferOwnership sender newOwner =>
          simp only [exec] at hex
          obtain rfl := transferOwnership_ok hex
          exact ih r
      | addProvider sender p =>
          simp only [exec] at hex
          rw [(addProvider_frame hex).2.2]
          exact ih r
      | removeProvider sender p =>
          simp only [exec] at hex
          rw [(removeProvider_frame hex).2.2]
          exact ih r
      | pause sender =>
          simp only [exec] at hex
          rw [(pause_frame hex).2.2]
          exact ih r
      | unpause sender =>
          simp only [exec] at hex
          rw [(unpause_frame hex).2.2]
          exact ih r
      | setCooldownSeconds sender n =>
          simp only [exec] at hex
          rw [(setCooldownSeconds_frame hex).2.2]
          exact ih r
      | openBatch sender =>
          simp only [exec] at hex
          obtain ⟨-, -, -, rfl, -⟩ := openBatch_ok hex
          exact ih r
      | closeBatch sender =>
          simp only [exec] at hex
          obtain ⟨-, -, -, rfl, -⟩ := closeBatch_ok hex
          exact ih r
      | setPolicyParameters sender now t2 t4 l =>
          simp only [exec] at hex
          obtain ⟨-, -, -, -, -, rfl, -⟩ := setPolicyParameters_ok hex
          exact ih r
      | submitTransaction sender now amt napp =>
          simp only [exec] at hex
          obtain ⟨-, -, -, -, -, rfl, -⟩ := submitTransaction_ok hex
          exact ih r
      | requestApprovalStatus sender now batchId requestId =>
          simp only [exec] at hex
          obtain ⟨-, -, -, hlt, hop, rfl, -⟩ := requestApprovalStatus_ok hex
          exact absurd (reachable_open_eq_current hsteps batchId hop) (by omega)
      | myCallback requestId clr pv =>
          simp only [exec] at hex
          obtain ⟨-, hhash, -, -, -⟩ := myCallback_ok hex
          rw [ih requestId] at hhash
          simp [hashCiphertexts, defaultContext] at hhash

/-- A handle is strictly smaller than the handle of an `add` it feeds:
homomorphic accumulation always produces a fresh, different handle. -/
theorem ECt.add_ne_left (t x : ECt) : ECt.add t x ≠ t := by
  intro h
  have hs := congrArg sizeOf h
  simp only [ECt.add.sizeOf_spec] at hs
  omega

/-- The predicate ciphertext determines the five input handles: the term
algebra of handles is free, so two predicate ciphertexts coincide only when
all five field handles coincide. -/
theorem approvalPredicate_inj {a n t2 t4 l a' n' t2' t4' l' : ECt}
    (h : approvalPredicate a n t2 t4 l = approvalPredicate a' n' t2' t4' l') :
    a = a' ∧ n = n' ∧ t2 = t2' ∧ t4 = t4' ∧ l = l' := by
  simp only [approvalPredicate, ECt.or.injEq, ECt.and.injEq, ECt.le.injEq,
    ECt.gt.injEq, ECt.ge.injEq] at h
  tauto

/-- `myCallback` fails with `StateMismatch` whenever the context is pending
but the recomputed hash differs from the pinned one. -/
theorem myCallback_mismatch (s : ContractState) (requestId : Nat) (clr pv : Bool)
    (hpend : (s.decryptionContexts requestId).processed = false)
    (hne : hashCiphertexts
        [batchPredicate (s.batches (s.decryptionContexts requestId).batchId)] s.selfAddr ≠
      (s.decryptionContexts requestId).stateHash) :
    myCallback s requestId clr pv = Except.error Err.StateMismatch := by
  simp [myCallback, hpend, hne]

/-- `submitTransaction` succeeds whenever all five guards are satisfied. -/
theorem submitTransaction_succeeds (s : ContractState) (sender now : Nat)
    (amt napp : ECt)
    (h1 : s.isProvider sender = true) (h2 : s.paused = false)
    (h3 : s.lastSubmissionTime sender + s.cooldownSeconds ≤ now)
    (h4 : s.lastDecryptionRequestTime sender + s.cooldownSeconds ≤ now)
    (h5 : (s.batches s.currentBatchId).isOpen = true) :
    ∃ s' ev, submitTransaction s sender now amt napp = Except.ok (s', ev) := by
  refine ⟨{ s with
      batches := Function.update s.batches s.currentBatchId
        { s.batches s.currentBatchId with
          totalAmountEncrypted := ECt.add (s.batches s.currentBatchId).totalAmountEncrypted amt
          numApprovalsEncrypted := ECt.add (s.batches s.currentBatchId).numApprovalsEncrypted napp }
      lastSubmissionTime := Function.update s.lastSubmissionTime sender now },
    [Event.TransactionSubmitted s.currentBatchId sender], ?_⟩
  simp only [submitTransaction, h1, h2, h5]
  rw [if_neg (by simp), if_neg (by simp), if_neg (by omega), if_neg (by omega),
    if_neg (by simp)]

/-- `setPolicyParameters` succeeds whenever all five guards are satisfied. -/
theorem setPolicyParameters_succeeds (s : ContractState) (sender now : Nat)
    (t2 t4 l : ECt)
    (h1 : s.isProvider sender = true) (h2 : s.paused = false)
    (h3 : s.lastSubmissionTime sender + s.cooldownSeconds ≤ now)
    (h4 : s.lastDecryptionRequestTime sender + s.cooldownSeconds ≤ now)
    (h5 : (s.batches s.currentBatchId).isOpen = true) :
    ∃ s' ev, setPolicyParameters s sender now t2 t4 l = Except.ok (s', ev) := by
  refine ⟨{ s with
      batches := Function.update s.batches s.currentBatchId
        { s.batches s.currentBatchId with
          threshold2Encrypted := t2
          threshold4Encrypted := t4
          limitEncrypted := l }
      lastSubmissionTime := Function.update s.lastSubmissionTime sender now },
    [Event.PolicyParametersSubmitted s.currentBatchId sender], ?_⟩
  simp only [setPolicyParameters, h1, h2, h5]
  rw [if_neg (by simp), if_neg (by simp), if_neg (by omega), if_neg (by omega),
    if_neg (by simp)]

/-- The batch stored by `openBatch`: open, with the default encrypted
constants 0, 0, 2, 4, 10000. -/
def demoBatch : Batch :=
  { id := 0, isOpen := true, totalAmountEncrypted := ECt.const 0,
    numApprovalsEncrypted := ECt.const 0, threshold2Encrypted := ECt.const 2,
    threshold4Encrypted := ECt.const 4, limitEncrypted := ECt.const 10000 }

/-- A concrete state with batch 1 open and current, one pending context
(id 5) pinned to the current predicate ciphertext, and one already-processed
context (id 6); used to instantiate the protocol theorems. -/
def demoState : ContractState :=
  { selfAddr := 9, owner := 0,
    isProvider := fun a => decide (a = 0),
    lastSubmissionTime := fun _ => 0,
    lastDecryptionRequestTime := fun _ => 0,
    cooldownSeconds := 60, paused := false,
    decryptionContexts := fun r =>
      if r = 5 then
        { batchId := 1, stateHash := HashV.digest [batchPredicate demoBatch] 9,
          processed := false }
      else if r = 6 then
        { batchId := 1, stateHash := HashV.zero, processed := true }
      else defaultContext,
    batches := fun i => if i = 1 then demoBatch else defaultBatch,
    currentBatchId := 1 }

/-- A concrete state whose address 5 is under active cooldown but is not a
provider, while address 0 is a provider under active cooldown. -/
def cexState : ContractState :=
  { selfAddr := 9, owner := 0,
    isProvider := fun a => decide (a = 0),
    lastSubmissionTime := fun _ => 100,
    lastDecryptionRequestTime := fun _ => 0,
    cooldownSeconds := 60, paused := false,
    decryptionContexts := fun _ => defaultContext,
    batches := fun i => if i = 1 then demoBatch else defaultBatch,
    currentBatchId := 1 }

/-! ## Claim theorems -/

/-- C2: under every plaintext interpretation of the five encrypted fields,
the single encrypted boolean composed by the predicate evaluation of
`requestApprovalStatus` (and recomputed identically in `myCallback` via
`batchPredicate`) decrypts to
`(amount ≤ limit ∧ approvals ≥ thresholdLow) ∨ (amount > limit ∧ approvals ≥ thresholdHigh)`,
and its ciphertext term contains both disjuncts unconditionally. -/
theorem approvalPredicate_decrypts (ρ : Nat → Nat)
    (amount numApprovals threshold2 threshold4 limit : ECt) :
    approvalPredicate amount numApprovals threshold2 threshold4 limit =
      ECt.or (ECt.and (ECt.le amount limit) (ECt.ge numApprovals threshold2))
        (ECt.and (ECt.gt amount limit) (ECt.ge numApprovals threshold4)) ∧
    (∀ b : Batch, batchPredicate b = approvalPredicate b.totalAmountEncrypted
      b.numApprovalsEncrypted b.threshold2Encrypted b.threshold4Encrypted b.limitEncrypted) ∧
    (evalCt ρ (approvalPredicate amount numApprovals threshold2 threshold4 limit) = 1 ↔
      ((evalCt ρ amount ≤ evalCt ρ limit ∧ evalCt ρ threshold2 ≤ evalCt ρ numApprovals) ∨
        (evalCt ρ limit < evalCt ρ amount ∧ evalCt ρ threshold4 ≤ evalCt ρ numApprovals))) := by
  refine ⟨rfl, fun b => rfl, ?_⟩
  simp only [approvalPredicate, evalCt, ite_one_eq_one]

/-- C1: the claim fails on the code. From every reachable state,
`requestApprovalStatus` returns an error for all arguments — the guard
`batchId >= currentBatchId` rejects exactly the batch ids that can be open,
since an open batch always has id `currentBatchId`. In the concrete
Scenario-A prefix (deploy, open batch 1, then request against the open
current batch with every other guard satisfied) it reverts with
`BatchClosed`. -/
theorem requestApprovalStatus_never_succeeds :
    (∀ d a s, Reachable d a s → ∀ sender now batchId requestId s' ev,
      requestApprovalStatus s sender now batchId requestId ≠ Except.ok (s', ev)) ∧
    (∀ s1 ev1, openBatch (initialState 0 9) 0 = Except.ok (s1, ev1) →
      (s1.batches s1.currentBatchId).isOpen = true ∧ s1.paused = false ∧
      s1.lastSubmissionTime 2 + s1.cooldownSeconds ≤ 100 ∧
      s1.lastDecryptionRequestTime 2 + s1.cooldownSeconds ≤ 100 ∧
      requestApprovalStatus s1 2 100 s1.currentBatchId 7 = Except.error Err.BatchClosed) := by
  constructor
  · intro d a s hr sender now batchId requestId s' ev hok
    obtain ⟨-, -, -, hlt, hop, -, -⟩ := requestApprovalStatus_ok hok
    exact absurd (reachable_open_eq_current hr batchId hop) (by omega)
  · intro s1 ev1 h1
    obtain ⟨-, -, -, rfl, -⟩ := openBatch_ok h1
    exact ⟨rfl, rfl, by norm_num [initialState], by norm_num [initialState], rfl⟩

/-- Witness for C1: from the freshly deployed state the request cannot
return successfully. -/
theorem requestApprovalStatus_never_succeeds_witness :
    requestApprovalStatus (initialState 0 9) 2 100 1 7 ≠
      Except.ok (initialState 0 9, []) :=
  requestApprovalStatus_never_succeeds.1 0 9 (initialState 0 9)
    Relation.ReflTransGen.refl 2 100 1 7 (initialState 0 9) []

/-- C3: a callback for a request whose context is already processed always
fails with `ReplayAttempt` — for every cleartext/proof outcome and with no
state change, so arbitrarily many repetitions behave identically — and along
every transition from a reachable state a processed flag never returns from
true to false. -/
theorem replay_rejection :
    (∀ s requestId clr pv, (s.decryptionContexts requestId).processed = true →
      myCallback s requestId clr pv = Except.error Err.ReplayAttempt ∧
      execState (Call.myCallback requestId clr pv) s = s) ∧
    (∀ d a s s', Reachable d a s → Step s s' → ∀ requestId,
      (s.decryptionContexts requestId).processed = true →
      (s'.decryptionContexts requestId).processed = true) := by
  constructor
  · intro s requestId clr pv hp
    have herr : myCallback s requestId clr pv = Except.error Err.ReplayAttempt := by
      simp [myCallback, hp]
    exact ⟨herr, by simp [execState, exec, herr]⟩
  · intro d a s s' hr hstep requestId hp
    obtain ⟨call, ev, hex⟩ := hstep
    rcases (exec_ok_shape hex).2.2.2.2 requestId with heq |
      ⟨sender, now, batchId, rfl, hlt, hop⟩ | ⟨-, hp1⟩
    · rw [heq]; exact hp
    · exact absurd (reachable_open_eq_current hr batchId hop) (by omega)
    · exact hp1

/-- Witness for C3: the already-processed demo context is rejected. -/
theorem replay_rejection_witness :
    myCallback demoState 6 true true = Except.error Err.ReplayAttempt :=
  (replay_rejection.1 demoState 6 true true rfl).1

/-- C5: with an unprocessed context whose pinned hash matches the recomputed
one, a failing proof verification makes `myCallback` fail with
`DecryptionFailed` and leave the state (hence the context) untouched, while
a passing verification marks the context processed and emits the completion
event with the request id, the context's batch id and the decoded boolean;
and every successful callback arises exactly this way, with all three
checks passed. -/
theorem myCallback_verification (s : ContractState) (requestId : Nat) (clr : Bool)
    (hpend : (s.decryptionContexts requestId).processed = false)
    (hhash : hashCiphertexts
        [batchPredicate (s.batches (s.decryptionContexts requestId).batchId)] s.selfAddr =
      (s.decryptionContexts requestId).stateHash) :
    (myCallback s requestId clr false = Except.error Err.DecryptionFailed ∧
      execState (Call.myCallback requestId clr false) s = s) ∧
    myCallback s requestId clr true = Except.ok
      ({ s with decryptionContexts := Function.update s.decryptionContexts requestId
                  { s.decryptionContexts requestId with processed := true } },
        [Event.DecryptionCompleted requestId (s.decryptionContexts requestId).batchId clr]) ∧
    (∀ (t : ContractState) (r : Nat) (c p : Bool) (t' : ContractState) (ev : List Event),
      myCallback t r c p = Except.ok (t', ev) →
      (t.decryptionContexts r).processed = false ∧
      hashCiphertexts [batchPredicate (t.batches (t.decryptionContexts r).batchId)]
          t.selfAddr = (t.decryptionContexts r).stateHash ∧
      p = true ∧
      t' = { t with decryptionContexts := Function.update t.decryptionContexts r
                      { t.decryptionContexts r with processed := true } } ∧
      ev = [Event.DecryptionCompleted r (t.decryptionContexts r).batchId c]) := by
  refine ⟨?_, ?_, fun t r c p t' ev h => myCallback_ok h⟩
  · have herr : myCallback s requestId clr false = Except.error Err.DecryptionFailed := by
      simp [myCallback, hpend, hhash]
    exact ⟨herr, by simp [execState, exec, herr]⟩
  · simp [myCallback, hpend, hhash]

/-- Witness for C5: the pinned pending demo context fails with
`DecryptionFailed` when the proof does not verify. -/
theorem myCallback_verification_witness :
    myCallback demoState 5 true false = Except.error Err.DecryptionFailed :=
  ((myCallback_verification demoState 5 true rfl rfl).1).1

/-- After a successful `submitTransaction`, the hash of the re-derived
predicate ciphertext of a context pinned to the old batch state no longer
matches, while the context table itself is untouched. -/
theorem submitTransaction_unpins {s : ContractState} {sender now : Nat}
    {amt napp : ECt} {s1 : ContractState} {ev : List Event} {requestId : Nat}
    (hok : submitTransaction s sender now amt napp = Except.ok (s1, ev))
    (hbid : (s.decryptionContexts requestId).batchId = s.currentBatchId)
    (hpin : (s.decryptionContexts requestId).stateHash =
      hashCiphertexts [batchPredicate (s.batches s.currentBatchId)] s.selfAddr) :
    hashCiphertexts
        [batchPredicate (s1.batches (s1.decryptionContexts requestId).batchId)] s1.selfAddr ≠
      (s1.decryptionContexts requestId).stateHash ∧
    s1.decryptionContexts = s.decryptionContexts := by
  obtain ⟨-, -, -, -, -, rfl, -⟩ := submitTransaction_ok hok
  refine ⟨?_, rfl⟩
  dsimp only
  rw [hbid, Function.update_same, hpin]
  intro hEq
  simp only [hashCiphertexts, HashV.digest.injEq, List.cons.injEq, and_true] at hEq
  have hfields := approvalPredicate_inj (by simpa [batchPredicate] using hEq)
  exact ECt.add_ne_left _ amt hfields.1

/-- After a successful `setPolicyParameters` that changes at least one of
the three parameter handles, the hash of the re-derived predicate ciphertext
of a context pinned to the old batch state no longer matches, while the
context table itself is untouched. -/
theorem setPolicyParameters_unpins {s : ContractState} {sender now : Nat}
    {t2 t4 l : ECt} {s1 : ContractState} {ev : List Event} {requestId : Nat}
    (hok : setPolicyParameters s sender now t2 t4 l = Except.ok (s1, ev))
    (hneq : (t2, t4, l) ≠ ((s.batches s.currentBatchId).threshold2Encrypted,
      (s.batches s.currentBatchId).threshold4Encrypted,
      (s.batches s.currentBatchId).limitEncrypted))
    (hbid : (s.decryptionContexts requestId).batchId = s.currentBatchId)
    (hpin : (s.decryptionContexts requestId).stateHash =
      hashCiphertexts [batchPredicate (s.batches s.currentBatchId)] s.selfAddr) :
    hashCiphertexts
        [batchPredicate (s1.batches (s1.decryptionContexts requestId).batchId)] s1.selfAddr ≠
      (s1.decryptionContexts requestId).stateHash ∧
    s1.decryptionContexts = s.decryptionContexts := by
  obtain ⟨-, -, -, -, -, rfl, -⟩ := setPolicyParameters_ok hok
  refine ⟨?_, rfl⟩
  dsimp only
  rw [hbid, Function.update_same, hpin]
  intro hEq
  simp only [hashCiphertexts, HashV.digest.injEq, List.cons.injEq, and_true] at hEq
  obtain ⟨-, -, e2, e4, el⟩ := approvalPredicate_inj (by simpa [batchPredicate] using hEq)
  exact hneq (by rw [e2, e4, el])

/-- C4: for a pending context pinned to its batch's current predicate
ciphertext, a successful intervening `submitTransaction` (which always
changes the accumulated handles), or a successful `setPolicyParameters`
that changes the stored parameter handles, makes the later callback fail
with `StateMismatch` for every proof outcome, leaving the state unchanged
and the context unprocessed. -/
theorem stale_callback_mismatch (s : ContractState)
    (requestId sender now : Nat) (amt napp t2 t4 l : ECt) (clr pv : Bool)
    (hpend : (s.decryptionContexts requestId).processed = false)
    (hbid : (s.decryptionContexts requestId).batchId = s.currentBatchId)
    (hpin : (s.decryptionContexts requestId).stateHash =
      hashCiphertexts [batchPredicate (s.batches s.currentBatchId)] s.selfAddr) :
    (∀ s1 ev, submitTransaction s sender now amt napp = Except.ok (s1, ev) →
      myCallback s1 requestId clr pv = Except.error Err.StateMismatch ∧
      execState (Call.myCallback requestId clr pv) s1 = s1 ∧
      (s1.decryptionContexts requestId).processed = false) ∧
    (∀ s1 ev, setPolicyParameters s sender now t2 t4 l = Except.ok (s1, ev) →
      (t2, t4, l) ≠ ((s.batches s.currentBatchId).threshold2Encrypted,
        (s.batches s.currentBatchId).threshold4Encrypted,
        (s.batches s.currentBatchId).limitEncrypted) →
      myCallback s1 requestId clr pv = Except.error Err.StateMismatch ∧
      execState (Call.myCallback requestId clr pv) s1 = s1 ∧
      (s1.decryptionContexts requestId).processed = false) := by
  constructor
  · intro s1 ev hok
    obtain ⟨hne, hctx⟩ := submitTransaction_unpins hok hbid hpin
    have hpend1 : (s1.decryptionContexts requestId).processed = false := by
      rw [hctx]; exact hpend
    have herr := myCallback_mismatch s1 requestId clr pv hpend1 hne
    exact ⟨herr, by simp [execState, exec, herr], hpend1⟩
  · intro s1 ev hok hneq
    obtain ⟨hne, hctx⟩ := setPolicyParameters_unpins hok hneq hbid hpin
    have hpend1 : (s1.decryptionContexts requestId).processed = false := by
      rw [hctx]; exact hpend
    have herr := myCallback_mismatch s1 requestId clr pv hpend1 hne
    exact ⟨herr, by simp [execState, exec, herr], hpend1⟩

/-- Witness for C4: in the demo state, submitting one more transaction after
the pinned request makes the callback fail with `StateMismatch` even with a
verifying proof. -/
theorem stale_callback_mismatch_witness :
    ∃ s1 ev, submitTransaction demoState 0 100 (ECt.ext 0) (ECt.ext 1) =
        Except.ok (s1, ev) ∧
      myCallback s1 5 true true = Except.error Err.StateMismatch := by
  obtain ⟨s1, ev, hok⟩ := submitTransaction_succeeds demoState 0 100 (ECt.ext 0)
    (ECt.ext 1) rfl rfl (by norm_num [demoState]) (by norm_num [demoState]) rfl
  exact ⟨s1, ev, hok,
    ((stale_callback_mismatch demoState 5 0 100 (ECt.ext 0) (ECt.ext 1) (ECt.ext 2)
      (ECt.ext 3) (ECt.ext 4) true true rfl rfl rfl).1 s1 ev hok).1⟩

/-- C6 counterexample: address 5 is under active cooldown in `cexState`
(now = 10 is before last submission 100 plus cooldown 60), yet its
`submitTransaction` call fails with `NotProvider`, not `CooldownActive`,
because the provider check runs first. -/
theorem cooldown_claim_counterexample :
    10 < cexState.lastSubmissionTime 5 + cexState.cooldownSeconds ∧
    submitTransaction cexState 5 10 (ECt.ext 0) (ECt.ext 1) =
      Except.error Err.NotProvider ∧
    submitTransaction cexState 5 10 (ECt.ext 0) (ECt.ext 1) ≠
      Except.error Err.CooldownActive := by
  refine ⟨by norm_num [cexState], rfl, ?_⟩
  intro h
  rw [show submitTransaction cexState 5 10 (ECt.ext 0) (ECt.ext 1) =
    Except.error Err.NotProvider from rfl] at h
  simp at h

/-- C6 (amended): provided the earlier guards pass — the caller is a
provider for the two provider actions, and the system is not paused — each
of `submitTransaction`, `setPolicyParameters` and `requestApprovalStatus`
fails with `CooldownActive` whenever the current time is strictly before
either the caller's last-submission or last-decryption-request timestamp
plus `cooldownSeconds`; and each succeeds only when both sums are at or
before the current time. -/
theorem cooldown_gate :
    (∀ s sender now amt napp, s.isProvider sender = true → s.paused = false →
      (now < s.lastSubmissionTime sender + s.cooldownSeconds ∨
        now < s.lastDecryptionRequestTime sender + s.cooldownSeconds) →
      submitTransaction s sender now amt napp = Except.error Err.CooldownActive) ∧
    (∀ s sender now t2 t4 l, s.isProvider sender = true → s.paused = false →
      (now < s.lastSubmissionTime sender + s.cooldownSeconds ∨
        now < s.lastDecryptionRequestTime sender + s.cooldownSeconds) →
      setPolicyParameters s sender now t2 t4 l = Except.error Err.CooldownActive) ∧
    (∀ s sender now batchId requestId, s.paused = false →
      (now < s.lastSubmissionTime sender + s.cooldownSeconds ∨
        now < s.lastDecryptionRequestTime sender + s.cooldownSeconds) →
      requestApprovalStatus s sender now batchId requestId =
        Except.error Err.CooldownActive) ∧
    (∀ s sender now amt napp s' ev,
      submitTransaction s sender now amt napp = Except.ok (s', ev) →
      s.lastSubmissionTime sender + s.cooldownSeconds ≤ now ∧
      s.lastDecryptionRequestTime sender + s.cooldownSeconds ≤ now) ∧
    (∀ s sender now t2 t4 l s' ev,
      setPolicyParameters s sender now t2 t4 l = Except.ok (s', ev) →
      s.lastSubmissionTime sender + s.cooldownSeconds ≤ now ∧
      s.lastDecryptionRequestTime sender + s.cooldownSeconds ≤ now) ∧
    (∀ s sender now batchId requestId s' ev,
      requestApprovalStatus s sender now batchId requestId = Except.ok (s', ev) →
      s.lastSubmissionTime sender + s.cooldownSeconds ≤ now ∧
      s.lastDecryptionRequestTime sender + s.cooldownSeconds ≤ now) := by
  refine ⟨?_, ?_, ?_, ?_, ?_, ?_⟩
  · intro s sender now amt napp h1 h2 hlt
    by_cases hc : now < s.lastSubmissionTime sender + s.cooldownSeconds
    · simp [submitTransaction, h1, h2, hc]
    · rcases hlt with h | h
      · exact absurd h hc
      · simp [submitTransaction, h1, h2, hc, h]
  · intro s sender now t2 t4 l h1 h2 hlt
    by_cases hc : now < s.lastSubmissionTime sender + s.cooldownSeconds
    · simp [setPolicyParameters, h1, h2, hc]
    · rcases hlt with h | h
      · exact absurd h hc
      · simp [setPolicyParameters, h1, h2, hc, h]
  · intro s sender now batchId requestId h2 hlt
    by_cases hc : now < s.lastSubmissionTime sender + s.cooldownSeconds
    · simp [requestApprovalStatus, h2, hc]
    · rcases hlt with h | h
      · exact absurd h hc
      · simp [requestApprovalStatus, h2, hc, h]
  · intro s sender now amt napp s' ev h
    exact ⟨(submitTransaction_ok h).2.2.1, (submitTransaction_ok h).2.2.2.1⟩
  · intro s sender now t2 t4 l s' ev h
    exact ⟨(setPolicyParameters_ok h).2.2.1, (setPolicyParameters_ok h).2.2.2.1⟩
  · intro s sender now batchId requestId s' ev h
    exact ⟨(requestApprovalStatus_ok h).2.1, (requestApprovalStatus_ok h).2.2.1⟩

/-- Witness for C6 (amended): the provider address 0 of `cexState`, under
active cooldown, gets `CooldownActive`. -/
theorem cooldown_gate_witness :
    submitTransaction cexState 0 10 (ECt.ext 0) (ECt.ext 1) =
      Except.error Err.CooldownActive :=
  cooldown_gate.1 cexState 0 10 (ECt.ext 0) (ECt.ext 1) rfl rfl
    (Or.inl (by norm_num [cexState]))

/-- C7: a successful `submitTransaction` or `setPolicyParameters` updates
exactly the caller's last-submission timestamp and leaves the
decryption-request clock untouched; a successful `requestApprovalStatus`
updates exactly the caller's last-decryption-request timestamp and leaves
the submission clock untouched; and a failed call (of any entry point)
leaves the whole state, in particular both timestamp tables, unchanged. -/
theorem timestamp_frame :
    (∀ s sender now amt napp s' ev,
      submitTransaction s sender now amt napp = Except.ok (s', ev) →
      s'.lastSubmissionTime = Function.update s.lastSubmissionTime sender now ∧
      s'.lastDecryptionRequestTime = s.lastDecryptionRequestTime) ∧
    (∀ s sender now t2 t4 l s' ev,
      setPolicyParameters s sender now t2 t4 l = Except.ok (s', ev) →
      s'.lastSubmissionTime = Function.update s.lastSubmissionTime sender now ∧
      s'.lastDecryptionRequestTime = s.lastDecryptionRequestTime) ∧
    (∀ s sender now batchId requestId s' ev,
      requestApprovalStatus s sender now batchId requestId = Except.ok (s', ev) →
      s'.lastDecryptionRequestTime =
        Function.update s.lastDecryptionRequestTime sender now ∧
      s'.lastSubmissionTime = s.lastSubmissionTime) ∧
    (∀ c s e, exec c s = Except.error e → execState c s = s) := by
  refine ⟨?_, ?_, ?_, ?_⟩
  · intro s sender now amt napp s' ev h
    obtain ⟨-, -, -, -, -, rfl, -⟩ := submitTransaction_ok h
    exact ⟨rfl, rfl⟩
  · intro s sender now t2 t4 l s' ev h
    obtain ⟨-, -, -, -, -, rfl, -⟩ := setPolicyParameters_ok h
    exact ⟨rfl, rfl⟩
  · intro s sender now batchId requestId s' ev h
    obtain ⟨-, -, -, -, -, rfl, -⟩ := requestApprovalStatus_ok h
    exact ⟨rfl, rfl⟩
  · intro c s e h
    simp [execState, h]

/-- Witness for C7: a rejected `pause` call (wrong sender) leaves the fresh
state unchanged. -/
theorem timestamp_frame_witness :
    execState (Call.pause 1) (initialState 0 9) = initialState 0 9 :=
  timestamp_frame.2.2.2 (Call.pause 1) (initialState 0 9) Err.NotOwner rfl

/-- The current batch id never decreases along any sequence of successful
calls. -/
theorem steps_mono_currentBatchId {s t : ContractState}
    (h : Relation.ReflTransGen Step s t) : s.currentBatchId ≤ t.currentBatchId := by
  induction h with
  | refl => exact le_refl _
  | tail hsteps hstep ih =>
      obtain ⟨c, ev, hex⟩ := hstep
      exact le_trans ih (exec_ok_shape hex).1

/-- Batches whose id is below the current one are never written again by
any later sequence of calls. -/
theorem steps_closed_frame {s t : ContractState}
    (h : Relation.ReflTransGen Step s t) :
    ∀ i, i < s.currentBatchId → t.batches i = s.batches i := by
  induction h with
  | refl => intro i _; rfl
  | tail hsteps hstep ih =>
      intro i hlt
      obtain ⟨c, ev, hex⟩ := hstep
      have hmid := steps_mono_currentBatchId hsteps
      rw [(exec_ok_shape hex).2.1 i (by omega), ih i hlt]

/-- C8: in every reachable state at most one batch is open and an open batch
is the current one; and every batch with id below the current one — in
particular every batch that has been closed by `closeBatch`, since closing
advances the id past it for good — keeps its stored record unchanged under
every later sequence of operations. -/
theorem batch_exclusivity (d a : Nat) (s : ContractState) (hr : Reachable d a s) :
    (∀ i j, (s.batches i).isOpen = true → (s.batches j).isOpen = true → i = j) ∧
    (∀ i, (s.batches i).isOpen = true → i = s.currentBatchId) ∧
    (∀ t, Relation.ReflTransGen Step s t →
      ∀ i, i < s.currentBatchId → t.batches i = s.batches i) := by
  refine ⟨?_, reachable_open_eq_current hr, fun t ht => steps_closed_frame ht⟩
  intro i j hi hj
  rw [reachable_open_eq_current hr i hi, reachable_open_eq_current hr j hj]

/-- Witness for C8: after opening batch 1 from a fresh deployment, an open
batch id must be the current id. -/
theorem batch_exclusivity_witness :
    ∃ s1, Step (initialState 0 9) s1 ∧
      ((s1.batches 1).isOpen = true → 1 = s1.currentBatchId) := by
  refine ⟨_, ⟨Call.openBatch 0, [Event.BatchOpened 1], rfl⟩, ?_⟩
  exact (batch_exclusivity 0 9 _ (Relation.ReflTransGen.refl.tail
    ⟨Call.openBatch 0, [Event.BatchOpened 1], rfl⟩)).2.1 1

/-- C9: on an owner call with the system unpaused, `openBatch` fails with
`BatchOpen` when the current batch is already open and otherwise marks it
open with the five encrypted fields reset to the encrypted constants
0, 0, 2, 4, 10000 and emits a batch-opened event; `closeBatch` fails with
`BatchClosed` when the current batch is not open and otherwise marks it
closed, emits a batch-closed event and advances `currentBatchId` by exactly
one; and across every successful call batch ids only move forward. -/
theorem batch_lifecycle :
    (∀ s sender, sender = s.owner → s.paused = false →
      ((s.batches s.currentBatchId).isOpen = true →
        openBatch s sender = Except.error Err.BatchOpen) ∧
      ((s.batches s.currentBatchId).isOpen = false →
        openBatch s sender = Except.ok
          ({ s with
              batches := Function.update s.batches s.currentBatchId
                { s.batches s.currentBatchId with
                  isOpen := true
                  totalAmountEncrypted := ECt.const 0
                  numApprovalsEncrypted := ECt.const 0
                  threshold2Encrypted := ECt.const 2
                  threshold4Encrypted := ECt.const 4
                  limitEncrypted := ECt.const 10000 } },
            [Event.BatchOpened s.currentBatchId]))) ∧
    (∀ s sender, sender = s.owner → s.paused = false →
      ((s.batches s.currentBatchId).isOpen = false →
        closeBatch s sender = Except.error Err.BatchClosed) ∧
      ((s.batches s.currentBatchId).isOpen = true →
        closeBatch s sender = Except.ok
          ({ s with
              batches := Function.update s.batches s.currentBatchId
                { s.batches s.currentBatchId with isOpen := false }
              currentBatchId := s.currentBatchId + 1 },
            [Event.BatchClosed s.currentBatchId]))) ∧
    (∀ s s', Step s s' → s.currentBatchId ≤ s'.currentBatchId) := by
  refine ⟨?_, ?_, ?_⟩
  · intro s sender hs hp
    constructor
    · intro ho; simp [openBatch, hs, hp, ho]
    · intro ho; simp [openBatch, hs, hp, ho]
  · intro s sender hs hp
    constructor
    · intro ho; simp [closeBatch, hs, hp, ho]
    · intro ho; simp [closeBatch, hs, hp, ho]
  · rintro s s' ⟨c, ev, hex⟩
    exact (exec_ok_shape hex).1

/-- Witness for C9: opening the already-open demo batch fails with
`BatchOpen`. -/
theorem batch_lifecycle_witness :
    openBatch demoState 0 = Except.error Err.BatchOpen :=
  (batch_lifecycle.1 demoState 0 rfl rfl).1 rfl

/-- C10: immediately after deployment the deployer is both the owner and an
authorized provider, with a `ProviderAdded` event emitted by the
constructor; hence once the deployer has opened a batch and the initial
cooldown window has elapsed, both provider-only operations succeed for the
deployer without any `addProvider` call. -/
theorem deployer_is_provider (d a : Nat) :
    (initialState d a).owner = d ∧
    (initialState d a).isProvider d = true ∧
    initialEvents d = [Event.ProviderAdded d] ∧
    (∀ now s1 ev1 amt napp t2 t4 l,
      openBatch (initialState d a) d = Except.ok (s1, ev1) → 60 ≤ now →
      (∃ s2 ev2, submitTransaction s1 d now amt napp = Except.ok (s2, ev2)) ∧
      (∃ s2 ev2, setPolicyParameters s1 d now t2 t4 l = Except.ok (s2, ev2))) := by
  refine ⟨rfl, by simp [initialState], rfl, ?_⟩
  intro now s1 ev1 amt napp t2 t4 l hopen hnow
  obtain ⟨-, -, -, rfl, -⟩ := openBatch_ok hopen
  constructor
  · exact submitTransaction_succeeds _ d now amt napp (by simp [initialState]) rfl
      (by simp [initialState]; omega) (by simp [initialState]; omega)
      (by dsimp only; rw [Function.update_same])
  · exact setPolicyParameters_succeeds _ d now t2 t4 l (by simp [initialState]) rfl
      (by simp [initialState]; omega) (by simp [initialState]; omega)
      (by dsimp only; rw [Function.update_same])

/-- Witness for C10: address 0 deploys at address 9, opens batch 1, and then
submits a transaction successfully without any `addProvider` call. -/
theorem deployer_is_provider_witness :
    ∃ s1 ev1, openBatch (initialState 0 9) 0 = Except.ok (s1, ev1) ∧
      ∃ s2 ev2, submitTransaction s1 0 60 (ECt.ext 0) (ECt.ext 1) =
        Except.ok (s2, ev2) := by
  refine ⟨_, _, rfl, ?_⟩
  exact ((deployer_is_provider 0 9).2.2.2 60 _ _ (ECt.ext 0) (ECt.ext 1) (ECt.ext 2)
    (ECt.ext 3) (ECt.ext 4) rfl (by norm_num)).1
